import Mathlib

/-!
# Verification of the swamp-window event dispatcher (`src/lib.rs`)

A shallow embedding of the `App` dispatcher from `src/lib.rs`.  The dispatcher
owns an optional native window reference, a focus flag and a tracked
cursor-visibility flag; it translates raw platform events into handler
callbacks and platform calls.

Modelling decisions:
* The handler (`&mut dyn AppHandler`) is a record of pure state-transition
  functions over an abstract handler-state type `H`.
* Every observable side effect (handler callback, platform call) is recorded
  in an ordered trace of `Effect`s.
* A Rust `unwrap()` on `None`/`Err` is a panic; fallible dispatch steps
  return `Except Panic _` with `Panic.unwrapNone` for such an unwrap.
* `f64` positions and deltas are carried opaquely as `Int × Int` (they are
  only passed through, never computed with); keyboard keys, buttons, touch
  data, scroll phases and unhandled-event tags are carried as `Nat`.
-/

/-- A native window is identified by its `WindowId` (an opaque identifier). -/
abbrev WindowId := Nat

/-- A physical cursor position (`PhysicalPosition<f64>`), carried opaquely. -/
abbrev Position := Int × Int

/-- A mouse-motion delta (`(f64, f64)`), carried opaquely. -/
abbrev Delta := Int × Int

/-- A physical window size (`PhysicalSize<u32>`), carried opaquely. -/
abbrev Size := Nat × Nat

/-- The dispatcher state owned by `App` (`src/lib.rs` lines 155-161):
`window: Option<Arc<Window>>` (modelled by its id), `is_focused: bool`,
`cursor_is_visible: bool`.  The handler reference and the immutable
`window_attributes` are kept outside the state record. -/
structure AppState where
  window : Option WindowId
  is_focused : Bool
  cursor_is_visible : Bool
deriving DecidableEq, Repr

/-- The state built by `App::new` (`src/lib.rs` lines 179-185):
no window yet, not focused, cursor tracked as visible. -/
def appNew : AppState :=
  { window := none, is_focused := false, cursor_is_visible := true }

/-- The `AppHandler` trait (`src/lib.rs` lines 26-153) as a record of pure
functions over an abstract handler state `H`.  Callbacks taking `&mut self`
become `H → H`; `redraw` additionally returns its `bool`; the queries
`cursor_should_be_visible`, `min_size`, `start_size` take `&self` and are
modelled as pure reads of `H`. -/
structure Handler (H : Type) where
  min_size : H → Nat × Nat
  start_size : H → Nat × Nat
  cursor_should_be_visible : H → Bool
  redraw : H → H × Bool
  got_focus : H → H
  lost_focus : H → H
  window_created : WindowId → H → H
  resized : Size → H → H
  keyboard_input : Bool → Nat → H → H
  cursor_entered : H → H
  cursor_left : H → H
  cursor_moved : Position → H → H
  mouse_input : Bool → Nat → H → H
  mouse_wheel : Delta → Nat → H → H
  mouse_motion : Delta → H → H
  touch : Nat → H → H
  scale_factor_changed : Int → Nat → H → H

/-- One observable side effect of processing an event: either a handler
callback or a call into the platform (winit) API, in program order. -/
inductive Effect where
  | platformCreateWindow (w : WindowId)
  | platformRequestRedraw
  | platformSetCursorVisible (b : Bool)
  | platformExitLoop
  | callbackWindowCreated (w : WindowId)
  | callbackResized (sz : Size)
  | callbackRedraw
  | callbackGotFocus
  | callbackLostFocus
  | callbackKeyboardInput (pressed : Bool) (key : Nat)
  | callbackCursorEntered
  | callbackCursorLeft
  | callbackCursorMoved (pos : Position)
  | callbackMouseInput (pressed : Bool) (button : Nat)
  | callbackMouseWheel (delta : Delta) (phase : Nat)
  | callbackMouseMotion (delta : Delta)
  | callbackTouch (t : Nat)
  | callbackScaleFactorChanged (factor : Int) (writer : Nat)
deriving DecidableEq, Repr

/-- A Rust panic, as produced by `unwrap()` on `None` or `Err`. -/
inductive Panic where
  | unwrapNone
deriving DecidableEq, Repr

/-- The `WindowEvent` constructors the dispatcher matches on
(`src/lib.rs` lines 230-322).  Every constructor the `match` does not name
falls into `other` (moved, IME, occluded, theme-changed, modifiers-changed,
dropped-file, gestures, ...), distinguished by an opaque tag. -/
inductive WEvent where
  | closeRequested
  | resized (sz : Size)
  | redrawRequested
  | focused (b : Bool)
  | keyboardInput (pressed : Bool) (key : Nat)
  | cursorMoved (pos : Position)
  | cursorEntered
  | cursorLeft
  | mouseWheel (delta : Delta) (phase : Nat)
  | mouseInput (pressed : Bool) (button : Nat)
  | touch (t : Nat)
  | scaleFactorChanged (factor : Int) (writer : Nat)
  | other (tag : Nat)
deriving DecidableEq, Repr

/-- The `DeviceEvent` constructors (`src/lib.rs` lines 206-223): only
`MouseMotion` is matched; every other device event (key, button, added,
removed, motion, wheel) falls through and is modelled by `other`. -/
inductive DEvent where
  | mouseMotion (delta : Delta)
  | other (tag : Nat)
deriving DecidableEq, Repr

/-- The outcome at the platform of `event_loop.create_window(..)`:
either a fresh window (by id) or a platform error (opaque code). -/
abbrev CreateResult := Except Nat WindowId

/-- `App::resumed` (`src/lib.rs` lines 190-204).  If no window exists,
creates one (`create_window(..).unwrap()` — a creation failure panics),
stores it, and invokes `window_created`; otherwise does nothing.
Returns the new handler state, dispatcher state and effect trace. -/
def resumed {H : Type} (hd : Handler H) (h : H) (s : AppState)
    (creation : CreateResult) : Except Panic (H × AppState × List Effect) :=
  match s.window with
  | some _ => Except.ok (h, s, [])
  | none =>
    match creation with
    | Except.error _ => Except.error Panic.unwrapNone
    | Except.ok w =>
        Except.ok (hd.window_created w h,
                   { s with window := some w },
                   [Effect.platformCreateWindow w, Effect.callbackWindowCreated w])

/-- `App::device_event` (`src/lib.rs` lines 206-223): forwards
`MouseMotion` to `mouse_motion` only while `is_focused`; every other
device event is ignored. -/
def device_event {H : Type} (hd : Handler H) (h : H) (s : AppState)
    (ev : DEvent) : H × AppState × List Effect :=
  match ev with
  | DEvent.mouseMotion delta =>
      if s.is_focused then
        (hd.mouse_motion delta h, s, [Effect.callbackMouseMotion delta])
      else (h, s, [])
  | DEvent.other _ => (h, s, [])

/-- `App::window_event` (`src/lib.rs` lines 225-323).  Line 226 reads
`self.window.as_ref().unwrap().id()`: with no window stored this is a
panic.  Events whose id differs from the owned window's id return early.
Otherwise the event is dispatched by the `match` on lines 230-322. -/
def window_event {H : Type} (hd : Handler H) (h : H) (s : AppState)
    (id : WindowId) (ev : WEvent) : Except Panic (H × AppState × List Effect) :=
  match s.window with
  | none => Except.error Panic.unwrapNone
  | some w =>
    if id ≠ w then Except.ok (h, s, [])
    else
      match ev with
      | WEvent.closeRequested => Except.ok (h, s, [Effect.platformExitLoop])
      | WEvent.resized sz =>
          Except.ok (hd.resized sz h, s,
                     [Effect.callbackResized sz, Effect.platformRequestRedraw])
      | WEvent.redrawRequested =>
          let req := hd.cursor_should_be_visible h
          let cursorEffects :=
            if req ≠ s.cursor_is_visible then [Effect.platformSetCursorVisible req]
            else []
          let s2 := if req ≠ s.cursor_is_visible then
                      { s with cursor_is_visible := req }
                    else s
          let r := hd.redraw h
          let exitEffects := if r.2 then [] else [Effect.platformExitLoop]
          Except.ok (r.1, s2,
                     Effect.platformRequestRedraw ::
                       (cursorEffects ++ Effect.callbackRedraw :: exitEffects))
      | WEvent.focused b =>
          let h2 := if b then hd.got_focus h else hd.lost_focus h
          Except.ok (h2, { s with is_focused := b },
                     [if b then Effect.callbackGotFocus else Effect.callbackLostFocus])
      | WEvent.keyboardInput pressed key =>
          Except.ok (hd.keyboard_input pressed key h, s,
                     [Effect.callbackKeyboardInput pressed key])
      | WEvent.cursorMoved pos =>
          if s.cursor_is_visible then
            Except.ok (hd.cursor_moved pos h, s, [Effect.callbackCursorMoved pos])
          else Except.ok (h, s, [])
      | WEvent.cursorEntered =>
          Except.ok (hd.cursor_entered h, s, [Effect.callbackCursorEntered])
      | WEvent.cursorLeft =>
          Except.ok (hd.cursor_left h, s, [Effect.callbackCursorLeft])
      | WEvent.mouseWheel delta phase =>
          Except.ok (hd.mouse_wheel delta phase h, s,
                     [Effect.callbackMouseWheel delta phase])
      | WEvent.mouseInput pressed button =>
          Except.ok (hd.mouse_input pressed button h, s,
                     [Effect.callbackMouseInput pressed button])
      | WEvent.touch t =>
          Except.ok (hd.touch t h, s, [Effect.callbackTouch t])
      | WEvent.scaleFactorChanged factor writer =>
          Except.ok (hd.scale_factor_changed factor writer h, s,
                     [Effect.callbackScaleFactorChanged factor writer])
      | WEvent.other _ => Except.ok (h, s, [])

/-- `App::suspended` (`src/lib.rs` line 325): empty body. -/
def suspended {H : Type} (h : H) (s : AppState) : H × AppState × List Effect :=
  (h, s, [])

/-- `App::exiting` (`src/lib.rs` line 327): empty body. -/
def exiting {H : Type} (h : H) (s : AppState) : H × AppState × List Effect :=
  (h, s, [])

/-- One raw platform notification delivered to the `ApplicationHandler`:
a window event (tagged with a window id), a device event, or one of the
lifecycle notifications `resumed` / `suspended` / `exiting`.  The
`resumedNotif` carries the outcome the platform would give for the
window-creation call made inside it. -/
inductive RawEvent where
  | window (id : WindowId) (ev : WEvent)
  | device (ev : DEvent)
  | resumedNotif (creation : CreateResult)
  | suspendedNotif
  | exitingNotif
deriving Repr

/-- Dispatch of one raw platform notification to the corresponding
`ApplicationHandler` method of `App`. -/
def dispatch {H : Type} (hd : Handler H) (h : H) (s : AppState)
    (ev : RawEvent) : Except Panic (H × AppState × List Effect) :=
  match ev with
  | RawEvent.window id wev => window_event hd h s id wev
  | RawEvent.device dev => Except.ok (device_event hd h s dev)
  | RawEvent.resumedNotif c => resumed hd h s c
  | RawEvent.suspendedNotif => Except.ok (suspended h s)
  | RawEvent.exitingNotif => Except.ok (exiting h s)

/-- Sequential dispatch of a list of raw notifications, accumulating the
effect trace; a panic aborts the sequence. -/
def dispatchSeq {H : Type} (hd : Handler H) (h : H) (s : AppState) :
    List RawEvent → Except Panic (H × AppState × List Effect)
  | [] => Except.ok (h, s, [])
  | ev :: rest =>
    match dispatch hd h s ev with
    | Except.error p => Except.error p
    | Except.ok (h2, s2, es) =>
      match dispatchSeq hd h2 s2 rest with
      | Except.error p => Except.error p
      | Except.ok (h3, s3, es2) => Except.ok (h3, s3, es ++ es2)

/-- Sequential processing of a list of `resumed` notifications only
(each with its own platform creation outcome), accumulating effects. -/
def resumedSeq {H : Type} (hd : Handler H) (h : H) (s : AppState) :
    List CreateResult → Except Panic (H × AppState × List Effect)
  | [] => Except.ok (h, s, [])
  | c :: rest =>
    match resumed hd h s c with
    | Except.error p => Except.error p
    | Except.ok (h2, s2, es) =>
      match resumedSeq hd h2 s2 rest with
      | Except.error p => Except.error p
      | Except.ok (h3, s3, es2) => Except.ok (h3, s3, es ++ es2)

/-- An opaque platform event-loop error (`winit::error::EventLoopError`). -/
abbrev EventLoopError := Nat

/-- `WindowRunner::run_app` (`src/lib.rs` lines 359-367).
`EventLoop::new()?` propagates an event-loop-creation error; otherwise the
control flow is set to poll, the `App` is built and the loop is run — and
its result is discarded (`let _ = event_loop.run_app(&mut app);`), so the
function returns `Ok(())` whenever the loop exits, whatever `loopResult`
the platform loop produced. -/
def run_app (eventLoopNew : Except EventLoopError Unit)
    (loopResult : Except EventLoopError Unit) : Except EventLoopError Unit :=
  match eventLoopNew with
  | Except.error e => Except.error e
  | Except.ok _ =>
      match loopResult with
      | _ => Except.ok ()

/-- Number of platform cursor-visibility mutations in an effect trace. -/
def countSetCursor : List Effect → Nat
  | [] => 0
  | Effect.platformSetCursorVisible _ :: rest => 1 + countSetCursor rest
  | _ :: rest => countSetCursor rest

/-- The value passed to the last platform cursor-visibility call of a
trace, if any. -/
def lastSetCursor : List Effect → Option Bool
  | [] => none
  | Effect.platformSetCursorVisible b :: rest =>
      some ((lastSetCursor rest).getD b)
  | _ :: rest => lastSetCursor rest

/-- Is an effect a handler callback (as opposed to a platform call)? -/
def Effect.isCallback : Effect → Bool
  | Effect.platformCreateWindow _ => false
  | Effect.platformRequestRedraw => false
  | Effect.platformSetCursorVisible _ => false
  | Effect.platformExitLoop => false
  | _ => true

/-- Is a raw notification a window event? -/
def RawEvent.isWindow : RawEvent → Bool
  | RawEvent.window _ _ => true
  | _ => false

/-- Is a raw notification a `resumed` notification? -/
def RawEvent.isResumed : RawEvent → Bool
  | RawEvent.resumedNotif _ => true
  | _ => false

/-- A concrete handler over the trivial state, used for witnesses. -/
def unitHandler : Handler Unit :=
  { min_size := fun _ => (640, 480)
    start_size := fun _ => (1280, 960)
    cursor_should_be_visible := fun _ => true
    redraw := fun _ => ((), true)
    got_focus := fun _ => ()
    lost_focus := fun _ => ()
    window_created := fun _ _ => ()
    resized := fun _ _ => ()
    keyboard_input := fun _ _ _ => ()
    cursor_entered := fun _ => ()
    cursor_left := fun _ => ()
    cursor_moved := fun _ _ => ()
    mouse_input := fun _ _ _ => ()
    mouse_wheel := fun _ _ _ => ()
    mouse_motion := fun _ _ => ()
    touch := fun _ _ => ()
    scale_factor_changed := fun _ _ _ => () }

/-! ## Helper lemmas -/

/-- `resumed` on a state that already owns a window is the identity
(the guard on `src/lib.rs` line 191). -/
lemma resumed_noop_of_some {H : Type} (hd : Handler H) (h : H) (s : AppState)
    (w : WindowId) (hw : s.window = some w) (c : CreateResult) :
    resumed hd h s c = Except.ok (h, s, []) := by
  simp [resumed, hw]

/-- A whole sequence of `resumed` notifications on a state that already owns
a window is the identity and produces no effects. -/
lemma resumedSeq_noop_of_some {H : Type} (hd : Handler H) (h : H) (s : AppState)
    (w : WindowId) (hw : s.window = some w) (cs : List CreateResult) :
    resumedSeq hd h s cs = Except.ok (h, s, []) := by
  induction cs with
  | nil => rfl
  | cons c rest ih =>
      simp [resumedSeq, resumed_noop_of_some hd h s w hw c, ih]

/-- Before the first `resumed` notification, a non-window raw notification
is dispatched to a handler method that does nothing: the state is still
`appNew`, no callback fires, no platform call is made. -/
lemma dispatch_initial_noop {H : Type} (hd : Handler H) (h : H) (ev : RawEvent)
    (hwin : ev.isWindow = false) (hres : ev.isResumed = false) :
    dispatch hd h appNew ev = Except.ok (h, appNew, []) := by
  cases ev with
  | window id wev => simp [RawEvent.isWindow] at hwin
  | device dev => cases dev <;> simp [dispatch, device_event, appNew]
  | resumedNotif c => simp [RawEvent.isResumed] at hres
  | suspendedNotif => rfl
  | exitingNotif => rfl

/-- `countSetCursor` distributes over trace concatenation. -/
lemma countSetCursor_append (a b : List Effect) :
    countSetCursor (a ++ b) = countSetCursor a + countSetCursor b := by
  induction a with
  | nil => simp [countSetCursor]
  | cons e rest ih => cases e <;> (simp [countSetCursor, ih]; try omega)

/-- Closed form of the `RedrawRequested` arm (`src/lib.rs` lines 238-255)
when the window is present and the id matches: one redraw re-request, then
a cursor-visibility mutation exactly when the desired value differs from
the tracked one, then the `redraw` callback, then an exit-loop request
exactly when `redraw` returned `false`; the tracked visibility ends equal
to the desired value. -/
lemma window_event_redraw_eq {H : Type} (hd : Handler H) (h : H) (s : AppState)
    (w : WindowId) (hw : s.window = some w) :
    window_event hd h s w WEvent.redrawRequested =
      Except.ok ((hd.redraw h).1,
        { s with cursor_is_visible := hd.cursor_should_be_visible h },
        Effect.platformRequestRedraw ::
          ((if hd.cursor_should_be_visible h = s.cursor_is_visible then []
            else [Effect.platformSetCursorVisible (hd.cursor_should_be_visible h)]) ++
           Effect.callbackRedraw ::
             (if (hd.redraw h).2 then [] else [Effect.platformExitLoop]))) := by
  cases s with
  | mk win foc cur =>
    simp only [AppState.window] at hw
    subst hw
    by_cases hreq : hd.cursor_should_be_visible h = cur
    · simp [window_event, hreq]
    · simp [window_event, hreq]


/-- Invariant step: for every successfully dispatched raw notification, the
tracked `cursor_is_visible` after the step equals the value passed to the
last platform cursor-visibility call of the step's trace, or the previous
tracked value if the step made no such call. -/
lemma cursor_tracks {H : Type} (hd : Handler H) (h : H) (s : AppState)
    (ev : RawEvent) (h' : H) (s' : AppState) (es : List Effect)
    (hstep : dispatch hd h s ev = Except.ok (h', s', es)) :
    s'.cursor_is_visible = (lastSetCursor es).getD s.cursor_is_visible := by
  cases ev with
  | window id wev =>
    cases hsw : s.window with
    | none => simp [dispatch, window_event, hsw] at hstep
    | some w =>
      by_cases hid : id = w
      · subst hid
        cases wev with
        | redrawRequested =>
            rw [dispatch, window_event_redraw_eq hd h s id hsw] at hstep
            simp only [Except.ok.injEq, Prod.mk.injEq] at hstep
            obtain ⟨-, hs, hes⟩ := hstep
            subst hs
            subst hes
            by_cases hreq : hd.cursor_should_be_visible h = s.cursor_is_visible
            · cases hr : (hd.redraw h).2 <;> simp [hreq, lastSetCursor, hr]
            · cases hr : (hd.redraw h).2 <;> simp [hreq, lastSetCursor, hr]
        | focused b =>
            cases b <;>
              (simp [dispatch, window_event, hsw] at hstep
               obtain ⟨-, hs, hes⟩ := hstep
               subst hs
               subst hes
               simp [lastSetCursor])
        | cursorMoved pos =>
            cases hcv : s.cursor_is_visible <;>
              (simp [dispatch, window_event, hsw, hcv] at hstep
               obtain ⟨-, hs, hes⟩ := hstep
               subst hs
               subst hes
               simp [lastSetCursor, hcv])
        | closeRequested =>
            simp [dispatch, window_event, hsw] at hstep
            obtain ⟨-, hs, hes⟩ := hstep
            subst hs
            subst hes
            simp [lastSetCursor]
        | resized sz =>
            simp [dispatch, window_event, hsw] at hstep
            obtain ⟨-, hs, hes⟩ := hstep
            subst hs
            subst hes
            simp [lastSetCursor]
        | keyboardInput pressed key =>
            simp [dispatch, window_event, hsw] at hstep
            obtain ⟨-, hs, hes⟩ := hstep
            subst hs
            subst hes
            simp [lastSetCursor]
        | cursorEntered =>
            simp [dispatch, window_event, hsw] at hstep
            obtain ⟨-, hs, hes⟩ := hstep
            subst hs
            subst hes
            simp [lastSetCursor]
        | cursorLeft =>
            simp [dispatch, window_event, hsw] at hstep
            obtain ⟨-, hs, hes⟩ := hstep
            subst hs
            subst hes
            simp [lastSetCursor]
        | mouseWheel delta phase =>
            simp [dispatch, window_event, hsw] at hstep
            obtain ⟨-, hs, hes⟩ := hstep
            subst hs
            subst hes
            simp [lastSetCursor]
        | mouseInput pressed button =>
            simp [dispatch, window_event, hsw] at hstep
            obtain ⟨-, hs, hes⟩ := hstep
            subst hs
            subst hes
            simp [lastSetCursor]
        | touch t =>
            simp [dispatch, window_event, hsw] at hstep
            obtain ⟨-, hs, hes⟩ := hstep
            subst hs
            subst hes
            simp [lastSetCursor]
        | scaleFactorChanged factor writer =>
            simp [dispatch, window_event, hsw] at hstep
            obtain ⟨-, hs, hes⟩ := hstep
            subst hs
            subst hes
            simp [lastSetCursor]
        | other tag =>
            simp [dispatch, window_event, hsw] at hstep
            obtain ⟨-, hs, hes⟩ := hstep
            subst hs
            subst hes
            simp [lastSetCursor]
      · simp [dispatch, window_event, hsw, hid] at hstep
        obtain ⟨-, hs, hes⟩ := hstep
        subst hs
        subst hes
        simp [lastSetCursor]
  | device dev =>
    cases dev with
    | mouseMotion delta =>
        cases hf : s.is_focused <;>
          (simp [dispatch, device_event, hf] at hstep
           obtain ⟨-, hs, hes⟩ := hstep
           subst hs
           subst hes
           simp [lastSetCursor])
    | other tag =>
        simp [dispatch, device_event] at hstep
        obtain ⟨-, hs, hes⟩ := hstep
        subst hs
        subst hes
        simp [lastSetCursor]
  | resumedNotif c =>
    cases hsw : s.window with
    | some w =>
        simp [dispatch, resumed, hsw] at hstep
        obtain ⟨-, hs, hes⟩ := hstep
        subst hs
        subst hes
        simp [lastSetCursor]
    | none =>
      cases c with
      | error e => simp [dispatch, resumed, hsw] at hstep
      | ok w =>
          simp [dispatch, resumed, hsw] at hstep
          obtain ⟨-, hs, hes⟩ := hstep
          subst hs
          subst hes
          simp [lastSetCursor]
  | suspendedNotif =>
    simp [dispatch, suspended] at hstep
    obtain ⟨-, hs, hes⟩ := hstep
    subst hs
    subst hes
    simp [lastSetCursor]
  | exitingNotif =>
    simp [dispatch, exiting] at hstep
    obtain ⟨-, hs, hes⟩ := hstep
    subst hs
    subst hes
    simp [lastSetCursor]

/-- Once the tracked cursor visibility agrees with the handler's desired
value, any number of consecutive redraw ticks (with the desired value
preserved by the `redraw` callback) performs zero platform
cursor-visibility mutations. -/
lemma ticks_no_mutation {H : Type} (hd : Handler H) (w : WindowId)
    (hconst : ∀ h', hd.cursor_should_be_visible (hd.redraw h').1 =
        hd.cursor_should_be_visible h') :
    ∀ (n : Nat) (h : H) (s : AppState), s.window = some w →
      hd.cursor_should_be_visible h = s.cursor_is_visible →
      ∃ h' s' es,
        dispatchSeq hd h s (List.replicate n (RawEvent.window w WEvent.redrawRequested)) =
          Except.ok (h', s', es) ∧ countSetCursor es = 0 := by
  intro n
  induction n with
  | zero =>
    intro h s hw heq
    exact ⟨h, s, [], rfl, rfl⟩
  | succ n ih =>
    intro h s hw heq
    obtain ⟨h', s', es, hseq, hcount⟩ :=
      ih (hd.redraw h).1 { s with cursor_is_visible := hd.cursor_should_be_visible h }
        (by simpa using hw) (by simpa using hconst h)
    refine ⟨h', s',
      (Effect.platformRequestRedraw :: Effect.callbackRedraw ::
        (if (hd.redraw h).2 then [] else [Effect.platformExitLoop])) ++ es, ?_, ?_⟩
    · rw [List.replicate_succ]
      simp only [dispatchSeq, dispatch]
      rw [window_event_redraw_eq hd h s w hw]
      rw [heq] at hseq
      simp [heq, hseq]
    · cases hr : (hd.redraw h).2 <;>
        simp [countSetCursor_append, countSetCursor, hcount, hr]

/-! ## Claims -/

/-- Claim C1, counterexample: processing a window event in the initial
state (before any `resumed` notification, so the native window reference
is still unset) is not a no-op — it panics on the `unwrap` of
`src/lib.rs` line 226. -/
theorem c1_window_event_panics_before_resumed :
    window_event unitHandler () appNew 0 WEvent.closeRequested =
      Except.error Panic.unwrapNone := rfl

/-- Claim C1, amended.  Before the first `resumed` notification the
dispatcher state is `appNew` (window unset, unfocused).  Every sequence of
non-window raw events (device events, `suspended`, `exiting`) is a total
no-op: no handler callback, no platform call, no dispatcher state change,
no panic.  A window event delivered in this situation, however, panics on
the `unwrap` of the unset window reference instead of being ignored. -/
theorem c1_noop_before_resumed_except_window_events {H : Type}
    (hd : Handler H) (h : H) :
    (∀ evs : List RawEvent,
        (∀ e ∈ evs, e.isWindow = false ∧ e.isResumed = false) →
        dispatchSeq hd h appNew evs = Except.ok (h, appNew, [])) ∧
    (∀ (id : WindowId) (wev : WEvent),
        window_event hd h appNew id wev = Except.error Panic.unwrapNone) := by
  constructor
  · intro evs
    induction evs with
    | nil => intro _; rfl
    | cons e rest ih =>
        intro hall
        have he := hall e (List.mem_cons_self e rest)
        have hrest := ih fun x hx => hall x (List.mem_cons_of_mem e hx)
        simp [dispatchSeq, dispatch_initial_noop hd h e he.1 he.2, hrest]
  · intro id wev
    rfl

/-- Witness for the amended claim C1 at concrete inputs. -/
theorem c1_noop_before_resumed_except_window_events_witness :
    dispatchSeq unitHandler () appNew
        [RawEvent.device (DEvent.mouseMotion (1, 2)), RawEvent.device (DEvent.other 0),
         RawEvent.suspendedNotif, RawEvent.exitingNotif] =
      Except.ok ((), appNew, []) ∧
    window_event unitHandler () appNew 3 (WEvent.cursorMoved (5, 6)) =
      Except.error Panic.unwrapNone := by
  constructor
  · refine (c1_noop_before_resumed_except_window_events unitHandler ()).1 _ ?_
    intro e he
    fin_cases he <;> exact ⟨rfl, rfl⟩
  · exact (c1_noop_before_resumed_except_window_events unitHandler ()).2 3
      (WEvent.cursorMoved (5, 6))

/-- Claim C2, counterexample: a failed window creation during the first
`resumed` makes the dispatcher panic (`unwrap` on `src/lib.rs` line 197);
it does not produce an error value that `run_app` could return. -/
theorem c2_creation_failure_panics_counterexample :
    resumed unitHandler () appNew (Except.error 7) =
      Except.error Panic.unwrapNone := rfl

/-- Claim C2, amended: if native window creation fails during `resumed`,
startup aborts by a panic (the `unwrap` of the creation result), with no
retry; the failure is not propagated as an error value returned from
`run_app` — once event-loop creation succeeded, `run_app` returns `Ok(())`
regardless of what the loop produced. -/
theorem c2_creation_failure_panics {H : Type} (hd : Handler H) (h : H)
    (s : AppState) (e : Nat) (hw : s.window = none) :
    resumed hd h s (Except.error e) = Except.error Panic.unwrapNone ∧
    ∀ r : Except EventLoopError Unit, run_app (Except.ok ()) r = Except.ok () :=
  ⟨by simp [resumed, hw], fun _ => rfl⟩

/-- Witness for the amended claim C2 at concrete inputs. -/
theorem c2_creation_failure_panics_witness :
    resumed unitHandler () appNew (Except.error 3) = Except.error Panic.unwrapNone ∧
    ∀ r : Except EventLoopError Unit, run_app (Except.ok ()) r = Except.ok () :=
  c2_creation_failure_panics unitHandler () appNew 3 rfl

/-- Claim C3, confirmed: for any sequence of `resumed` notifications in
one run, starting with no window and a successful creation, the native
window is created and stored exactly once and `window_created` fires
exactly once (on the first notification); all subsequent `resumed`
notifications are no-ops leaving the handler state, the stored window
handle and the rest of the dispatcher state unchanged, and contribute no
effects. -/
theorem c3_window_created_exactly_once {H : Type} (hd : Handler H) (h : H)
    (s : AppState) (hw : s.window = none) (w : WindowId)
    (rest : List CreateResult) :
    resumedSeq hd h s (Except.ok w :: rest) =
      Except.ok (hd.window_created w h, { s with window := some w },
        [Effect.platformCreateWindow w, Effect.callbackWindowCreated w]) := by
  have h1 : resumed hd h s (Except.ok w) =
      Except.ok (hd.window_created w h, { s with window := some w },
        [Effect.platformCreateWindow w, Effect.callbackWindowCreated w]) := by
    simp [resumed, hw]
  simp [resumedSeq, h1,
    resumedSeq_noop_of_some hd (hd.window_created w h)
      { s with window := some w } w rfl rest]

/-- Witness for claim C3 at concrete inputs (three `resumed` notifications). -/
theorem c3_window_created_exactly_once_witness :
    resumedSeq unitHandler () appNew [Except.ok 5, Except.ok 9, Except.error 2] =
      Except.ok ((),
        { window := some 5, is_focused := false, cursor_is_visible := true },
        [Effect.platformCreateWindow 5, Effect.callbackWindowCreated 5]) := by
  have h1 := c3_window_created_exactly_once unitHandler () appNew rfl 5
    [Except.ok 9, Except.error 2]
  simpa [appNew, unitHandler] using h1

/-- Claim C4, confirmed: one redraw-requested event with the window
present and the id matching produces, in this order: exactly one redraw
re-request, then at most one cursor-visibility mutation (exactly when the
handler's desired visibility differs from the tracked value), then exactly
one `redraw` callback, then — exactly when `redraw` returned `false` — an
exit of the run loop. -/
theorem c4_redraw_tick_order {H : Type} (hd : Handler H) (h : H)
    (s : AppState) (w : WindowId) (hw : s.window = some w) :
    window_event hd h s w WEvent.redrawRequested =
      Except.ok ((hd.redraw h).1,
        { s with cursor_is_visible := hd.cursor_should_be_visible h },
        Effect.platformRequestRedraw ::
          ((if hd.cursor_should_be_visible h = s.cursor_is_visible then []
            else [Effect.platformSetCursorVisible (hd.cursor_should_be_visible h)]) ++
           Effect.callbackRedraw ::
             (if (hd.redraw h).2 then [] else [Effect.platformExitLoop]))) :=
  window_event_redraw_eq hd h s w hw

/-- Witness for claim C4 at concrete inputs (desired visibility `true`,
tracked `false`, `redraw` keeps going). -/
theorem c4_redraw_tick_order_witness :
    window_event unitHandler ()
        { window := some 4, is_focused := true, cursor_is_visible := false } 4
        WEvent.redrawRequested =
      Except.ok ((),
        { window := some 4, is_focused := true, cursor_is_visible := true },
        [Effect.platformRequestRedraw, Effect.platformSetCursorVisible true,
         Effect.callbackRedraw]) := by
  have h1 := c4_redraw_tick_order unitHandler ()
    { window := some 4, is_focused := true, cursor_is_visible := false } 4 rfl
  simpa [unitHandler] using h1

/-- Claim C5, confirmed: (1) during a redraw tick the platform
set-cursor-visible call happens exactly when `cursor_should_be_visible`
differs from the tracked `cursor_is_visible`, every such call passes the
desired value, and the tracked value ends equal to the desired value;
(2) after any successfully dispatched raw notification the tracked value
equals the value last applied to the platform (or the previous tracked
value if no call was made); (3) `n` consecutive redraw ticks with an
unchanged desired value perform zero platform cursor mutations after the
first change (`0` if already in agreement, otherwise exactly `1`). -/
theorem c5_cursor_reconciliation {H : Type} (hd : Handler H) (h : H)
    (s : AppState) (w : WindowId) (hw : s.window = some w)
    (hconst : ∀ h', hd.cursor_should_be_visible (hd.redraw h').1 =
        hd.cursor_should_be_visible h') :
    (∃ h' s' es,
       window_event hd h s w WEvent.redrawRequested = Except.ok (h', s', es) ∧
       countSetCursor es =
         (if hd.cursor_should_be_visible h = s.cursor_is_visible then 0 else 1) ∧
       s'.cursor_is_visible = hd.cursor_should_be_visible h ∧
       (∀ b, Effect.platformSetCursorVisible b ∈ es →
          b = hd.cursor_should_be_visible h)) ∧
    (∀ (s0 : AppState) (ev : RawEvent) (h' : H) (s' : AppState) (es : List Effect),
       dispatch hd h s0 ev = Except.ok (h', s', es) →
       s'.cursor_is_visible = (lastSetCursor es).getD s0.cursor_is_visible) ∧
    (∀ n : Nat, ∃ h' s' es,
       dispatchSeq hd h s (List.replicate n (RawEvent.window w WEvent.redrawRequested)) =
         Except.ok (h', s', es) ∧
       countSetCursor es =
         (if hd.cursor_should_be_visible h = s.cursor_is_visible then 0
          else min n 1)) := by
  refine ⟨?_, fun s0 ev h' s' es hstep => cursor_tracks hd h s0 ev h' s' es hstep, ?_⟩
  · refine ⟨(hd.redraw h).1,
      { s with cursor_is_visible := hd.cursor_should_be_visible h }, _,
      window_event_redraw_eq hd h s w hw, ?_, rfl, ?_⟩
    · by_cases hreq : hd.cursor_should_be_visible h = s.cursor_is_visible <;>
        cases hr : (hd.redraw h).2 <;>
        simp [hreq, hr, countSetCursor]
    · intro b hb
      by_cases hreq : hd.cursor_should_be_visible h = s.cursor_is_visible
      · cases hr : (hd.redraw h).2 <;> simp [hreq, hr] at hb
      · cases hr : (hd.redraw h).2 <;> simp [hreq, hr] at hb <;> exact hb
  · intro n
    by_cases hreq : hd.cursor_should_be_visible h = s.cursor_is_visible
    · obtain ⟨h', s', es, hseq, hcount⟩ := ticks_no_mutation hd w hconst n h s hw hreq
      exact ⟨h', s', es, hseq, by simp [hreq, hcount]⟩
    · cases n with
      | zero => exact ⟨h, s, [], rfl, by simp [hreq, countSetCursor]⟩
      | succ n =>
        obtain ⟨h', s', es, hseq, hcount⟩ :=
          ticks_no_mutation hd w hconst n (hd.redraw h).1
            { s with cursor_is_visible := hd.cursor_should_be_visible h }
            (by simpa using hw) (by simpa using hconst h)
        refine ⟨h', s',
          (Effect.platformRequestRedraw ::
            Effect.platformSetCursorVisible (hd.cursor_should_be_visible h) ::
            Effect.callbackRedraw ::
            (if (hd.redraw h).2 then [] else [Effect.platformExitLoop])) ++ es,
          ?_, ?_⟩
        · rw [List.replicate_succ]
          simp only [dispatchSeq, dispatch]
          rw [window_event_redraw_eq hd h s w hw]
          simp [hreq, hseq]
        · cases hr : (hd.redraw h).2 <;>
            (simp [countSetCursor_append, countSetCursor, hcount, hr, hreq]
             try omega)

/-- Witness for claim C5: three consecutive redraw ticks starting with
tracked visibility `false` and desired visibility `true` perform exactly
one platform cursor mutation. -/
theorem c5_cursor_reconciliation_witness :
    ∃ h' s' es,
      dispatchSeq unitHandler ()
          { window := some 1, is_focused := false, cursor_is_visible := false }
          (List.replicate 3 (RawEvent.window 1 WEvent.redrawRequested)) =
        Except.ok (h', s', es) ∧ countSetCursor es = 1 := by
  obtain ⟨h', s', es, hseq, hcount⟩ :=
    (c5_cursor_reconciliation unitHandler ()
      { window := some 1, is_focused := false, cursor_is_visible := false } 1 rfl
      (fun h' => rfl)).2.2 3
  refine ⟨h', s', es, hseq, ?_⟩
  simpa [unitHandler] using hcount

/-- Claim C6, confirmed: a cursor-moved event (window present, id
matching) leaves the dispatcher state unchanged, produces no platform
call, and invokes `cursor_moved(position)` if and only if the tracked
`cursor_is_visible` is `true` at the time the event is processed; when it
is `false` the event is dropped entirely (no callback, handler state
untouched, empty trace). -/
theorem c6_cursor_moved_iff_visible {H : Type} (hd : Handler H) (h : H)
    (s : AppState) (w : WindowId) (pos : Position) (hw : s.window = some w) :
    ∃ h' es,
      window_event hd h s w (WEvent.cursorMoved pos) = Except.ok (h', s, es) ∧
      ((Effect.callbackCursorMoved pos ∈ es) ↔ s.cursor_is_visible = true) ∧
      (∀ e ∈ es, e = Effect.callbackCursorMoved pos) ∧
      (s.cursor_is_visible = false → h' = h ∧ es = []) := by
  cases hcv : s.cursor_is_visible with
  | true =>
      refine ⟨hd.cursor_moved pos h, [Effect.callbackCursorMoved pos], ?_, ?_, ?_, ?_⟩
      · simp [window_event, hw, hcv]
      · simp
      · simp
      · simp [hcv]
  | false =>
      refine ⟨h, [], ?_, ?_, ?_, ?_⟩
      · simp [window_event, hw, hcv]
      · simp [hcv]
      · simp
      · exact fun _ => ⟨rfl, rfl⟩

/-- Witness for claim C6 at concrete inputs (cursor invisible: the event
is dropped; the proof applies the claim's theorem). -/
theorem c6_cursor_moved_iff_visible_witness :
    window_event unitHandler ()
        { window := some 2, is_focused := true, cursor_is_visible := false } 2
        (WEvent.cursorMoved (3, 4)) =
      Except.ok ((),
        { window := some 2, is_focused := true, cursor_is_visible := false },
        []) := by
  obtain ⟨h', es, heq, -, -, hdrop⟩ :=
    c6_cursor_moved_iff_visible unitHandler ()
      { window := some 2, is_focused := true, cursor_is_visible := false } 2 (3, 4) rfl
  obtain ⟨hh, hes⟩ := hdrop rfl
  rw [heq, hh, hes]

/-- Claim C7, confirmed: a raw device mouse-motion event invokes
`mouse_motion(delta)` if and only if `is_focused` is `true` at the time
the event is processed (otherwise it is a complete no-op), and a focused
window event updates `is_focused` to the reported value — so a focus-lost
event suppresses exactly the motion events processed after it, and a
focus-gained event re-enables them. -/
theorem c7_mouse_motion_iff_focused {H : Type} (hd : Handler H) (h : H)
    (s : AppState) (delta : Delta) :
    (∃ h' es,
       device_event hd h s (DEvent.mouseMotion delta) = (h', s, es) ∧
       ((Effect.callbackMouseMotion delta ∈ es) ↔ s.is_focused = true) ∧
       (s.is_focused = false → h' = h ∧ es = [])) ∧
    (∀ (w : WindowId) (b : Bool), s.window = some w →
       ∃ h' es,
         window_event hd h s w (WEvent.focused b) =
           Except.ok (h', { s with is_focused := b }, es)) := by
  constructor
  · cases hf : s.is_focused with
    | true =>
        refine ⟨hd.mouse_motion delta h, [Effect.callbackMouseMotion delta], ?_, ?_, ?_⟩
        · simp [device_event, hf]
        · simp
        · simp [hf]
    | false =>
        refine ⟨h, [], ?_, ?_, ?_⟩
        · simp [device_event, hf]
        · simp [hf]
        · exact fun _ => ⟨rfl, rfl⟩
  · intro w b hw
    cases b with
    | true =>
        exact ⟨hd.got_focus h, [Effect.callbackGotFocus],
          by simp [window_event, hw]⟩
    | false =>
        exact ⟨hd.lost_focus h, [Effect.callbackLostFocus],
          by simp [window_event, hw]⟩

/-- Witness for claim C7 at concrete inputs: motion delivered while
focused, and a focus-lost event clears `is_focused`. -/
theorem c7_mouse_motion_iff_focused_witness :
    (Effect.callbackMouseMotion (2, 3) ∈
      (device_event unitHandler ()
        { window := some 1, is_focused := true, cursor_is_visible := true }
        (DEvent.mouseMotion (2, 3))).2.2) ∧
    (∃ h' es,
       window_event unitHandler ()
           { window := some 1, is_focused := true, cursor_is_visible := true } 1
           (WEvent.focused false) =
         Except.ok (h',
           { window := some 1, is_focused := false, cursor_is_visible := true },
           es)) := by
  constructor
  · obtain ⟨h', es, heq, hiff, -⟩ :=
      (c7_mouse_motion_iff_focused unitHandler ()
        { window := some 1, is_focused := true, cursor_is_visible := true } (2, 3)).1
    rw [heq]
    exact hiff.mpr rfl
  · exact (c7_mouse_motion_iff_focused unitHandler ()
      { window := some 1, is_focused := true, cursor_is_visible := true } (2, 3)).2
      1 false rfl

/-- Claim C8, confirmed: with the owned window present, a window event
tagged with a different window id is silently discarded — the handler
state, the full dispatcher state (window handle, `is_focused`,
`cursor_is_visible`) are unchanged, and the effect trace is empty (no
callback, no platform call). -/
theorem c8_mismatched_id_discarded {H : Type} (hd : Handler H) (h : H)
    (s : AppState) (w id : WindowId) (ev : WEvent)
    (hw : s.window = some w) (hne : id ≠ w) :
    window_event hd h s id ev = Except.ok (h, s, []) := by
  simp [window_event, hw, hne]

/-- Witness for claim C8 at concrete inputs. -/
theorem c8_mismatched_id_discarded_witness :
    window_event unitHandler ()
        { window := some 1, is_focused := true, cursor_is_visible := true } 2
        WEvent.closeRequested =
      Except.ok ((),
        { window := some 1, is_focused := true, cursor_is_visible := true },
        []) :=
  c8_mismatched_id_discarded unitHandler ()
    { window := some 1, is_focused := true, cursor_is_visible := true } 1 2
    WEvent.closeRequested rfl (by decide)

/-- Claim C9, confirmed: `run_app` returns an error value exactly when
event-loop creation itself fails; its result does not depend on the
outcome of the platform run loop, and once the event loop is created it
returns `Ok(())` when the loop exits — the loop's own error result is
discarded (`let _ = ...` on `src/lib.rs` line 365). -/
theorem c9_run_app_error_iff_loop_creation_fails
    (c r r2 : Except EventLoopError Unit) :
    ((∃ e, run_app c r = Except.error e) ↔ (∃ e, c = Except.error e)) ∧
    run_app c r = run_app c r2 ∧
    (∀ u : Unit, run_app (Except.ok u) r = Except.ok ()) := by
  refine ⟨?_, ?_, fun u => rfl⟩
  · cases c <;> simp [run_app]
  · cases c <;> rfl

/-- Claim C10, confirmed: every platform notification outside the dispatch
mapping is a complete no-op — an unhandled window event (with the window
present and the id matching), any device event other than mouse motion,
and the `suspended` and `exiting` lifecycle notifications all leave the
handler state and dispatcher state unchanged and produce no effects. -/
theorem c10_unhandled_events_noop {H : Type} (hd : Handler H) (h : H)
    (s : AppState) (w : WindowId) (hw : s.window = some w)
    (tag dtag : Nat) :
    window_event hd h s w (WEvent.other tag) = Except.ok (h, s, []) ∧
    device_event hd h s (DEvent.other dtag) = (h, s, []) ∧
    suspended h s = (h, s, []) ∧
    exiting h s = (h, s, []) := by
  refine ⟨?_, rfl, rfl, rfl⟩
  simp [window_event, hw]

/-- Witness for claim C10 at concrete inputs. -/
theorem c10_unhandled_events_noop_witness :
    window_event unitHandler ()
        { window := some 6, is_focused := true, cursor_is_visible := true } 6
        (WEvent.other 0) =
      Except.ok ((),
        { window := some 6, is_focused := true, cursor_is_visible := true },
        []) ∧
    device_event unitHandler ()
        { window := some 6, is_focused := true, cursor_is_visible := true }
        (DEvent.other 1) =
      ((), { window := some 6, is_focused := true, cursor_is_visible := true }, []) ∧
    suspended ()
        { window := some 6, is_focused := true, cursor_is_visible := true } =
      ((), { window := some 6, is_focused := true, cursor_is_visible := true }, []) ∧
    exiting ()
        { window := some 6, is_focused := true, cursor_is_visible := true } =
      ((), { window := some 6, is_focused := true, cursor_is_visible := true }, []) :=
  c10_unhandled_events_noop unitHandler ()
    { window := some 6, is_focused := true, cursor_is_visible := true } 6 rfl 0 1
